import Mathlib

/-!
Verification of the JerseysFever full-sync engine
(`cloud-functions/full-sync/main.py`).

The Python source is shallowly embedded below:

* `request_with_retry` embeds `WooCommerceClient._request_with_retry`
  (the retry gate), with an explicit trace of the backoff sleeps and of
  the number of HTTP attempts performed;
* `get_all_products` embeds `WooCommerceClient.get_all_products`
  (the paginated catalog reader), with an explicit count of page
  requests;
* `process_woo_product` embeds the inner worker function
  `process_woo_product` of `full_sync_site` (the item enricher);
* `batch_update_products` embeds `batch_update_products` (the batch
  merger/writer), over a datastore modelled as a partial map from SKU
  to stored record;
* `processResult` / `runLoop` / `finalizeSync` embed the result-consuming
  loop of `full_sync_site` (progress accumulation, 300-item batch
  flushes, cancellation polling every 50 completions, terminal status).

Python dicts keyed by site code are modelled as `SiteMap` (functions
`String → Option _`); Python dict merge `{**a, **b}` is `dictMerge`;
Python `x or default` falsy-coalescing is `pyOrInt` / `pyOrStr`;
`float(...)` is `parseDecimal` (exceptions become `none`).
-/

abbrev Site := String

/-- A Python dict keyed by site code: `{site: value, ...}`. -/
def SiteMap (V : Type) : Type := Site → Option V

/-- The singleton dict `{site: v}` built by the enricher. -/
def siteSingleton {V : Type} (site : Site) (v : V) : SiteMap V :=
  fun s => if s = site then some v else none

/-- The empty dict `{}`. -/
def emptySiteMap {V : Type} : SiteMap V := fun _ => none

/-- Python `{**e, **u}`: keys of `u` overwrite, all other keys of `e`
are preserved. -/
def dictMerge {V : Type} (e u : SiteMap V) : SiteMap V :=
  fun s =>
    match u s with
    | some v => some v
    | none => e s

/-- `safe_dict(val)` from `batch_update_products`: a value that is
absent or not dict-shaped (modelled as `none`) is replaced by `{}`. -/
def safe_dict {V : Type} (v : Option (SiteMap V)) : SiteMap V :=
  v.getD emptySiteMap

/-- Python `a or 100` on an optional integer: `None` and `0` are falsy. -/
def pyOrInt (a : Option Int) (d : Int) : Int :=
  match a with
  | none => d
  | some q => if q = 0 then d else q

/-- Truthiness of an optional string: `None` and `''` are falsy. -/
def strFalsy (a : Option String) : Bool :=
  match a with
  | none => true
  | some s => s == ""

/-- Python `a or b` on optional strings (`none` when both are falsy,
which the caller coalesces to the literal `0`). -/
def pyOrStr (a b : Option String) : Option String :=
  if strFalsy a then (if strFalsy b then none else b) else a

/-- Numeric value of a digit list (most significant first). -/
def digitsToNat (l : List Char) : Nat :=
  l.foldl (fun a c => 10 * a + (c.toNat - 48)) 0

/-- Python `float(s)` on a plain decimal literal; `none` models the
`ValueError` raised on a malformed string. -/
def parseDecimal (s : String) : Option Rat :=
  let signed : Int × List Char :=
    match s.toList with
    | '-' :: r => (-1, r)
    | '+' :: r => (1, r)
    | r => (1, r)
  let sg := signed.fst
  match signed.snd.splitOn '.' with
  | [ds] =>
      if ds ≠ [] ∧ ds.all Char.isDigit then
        some ((sg * (digitsToNat ds : Int) : Int) : Rat)
      else none
  | [ip, fp] =>
      if (ip ≠ [] ∨ fp ≠ []) ∧ ip.all Char.isDigit ∧ fp.all Char.isDigit then
        some ((sg : Rat) *
          ((digitsToNat ip : Rat) + (digitsToNat fp : Rat) / ((10 : Rat) ^ fp.length)))
      else none
  | _ => none

/-- `float(a or b or 0)`: the price coalescing used for
`prices` and `regular_prices`. -/
def floatOfPy (a b : Option String) : Option Rat :=
  match pyOrStr a b with
  | none => some 0
  | some s => parseDecimal s

/-! ## Retry gate (`WooCommerceClient._request_with_retry`) -/

/-- Outcome of one `requests.get` call: an HTTP response with a status
code, or a network-transport exception (`RequestException`). -/
inductive FetchOutcome where
  | resp (status : Nat)
  | exn (msg : String)

/-- The error surfaced by the retry gate. `httpError` is the
`HTTPError` raised by `response.raise_for_status()` (a subclass of
`RequestException`); `maxRetriesExceeded` is the `Exception` raised
after the loop, reachable only with a zero retry budget. -/
inductive ReqError where
  | httpError (status : Nat)
  | netError (msg : String)
  | maxRetriesExceeded
deriving DecidableEq

/-- Observable behaviour of one call through the retry gate: the final
outcome, the list of backoff sleeps performed (in seconds, in order),
and the number of HTTP attempts made. -/
structure RetryResult where
  outcome : Except ReqError Nat
  sleeps : List Nat
  attempts : Nat

/-- The body of the `for attempt in range(max_retries)` loop.
`remaining` is the number of loop iterations still available
(`max_retries - attempt`); `attempt + 1 < max_retries` is exactly
`1 < remaining`.  A `503` response with a retry left sleeps
`(attempt+1)*2` seconds and continues; any other `status >= 400` makes
`raise_for_status` raise an `HTTPError`, which is caught by the same
`except RequestException` handler as a transport error (so the last-
attempt `503` also surfaces as `httpError 503` through that handler). -/
def retryGo (fetch : Nat → FetchOutcome) : Nat → Nat → RetryResult
  | _, 0 => ⟨.error .maxRetriesExceeded, [], 0⟩
  | attempt, r + 1 =>
    match fetch attempt with
    | .resp status =>
      if status = 503 ∧ 0 < r then
        let rest := retryGo fetch (attempt + 1) r
        ⟨rest.outcome, (attempt + 1) * 2 :: rest.sleeps, rest.attempts + 1⟩
      else if 400 ≤ status then
        if 0 < r then
          let rest := retryGo fetch (attempt + 1) r
          ⟨rest.outcome, (attempt + 1) * 2 :: rest.sleeps, rest.attempts + 1⟩
        else ⟨.error (.httpError status), [], 1⟩
      else ⟨.ok status, [], 1⟩
    | .exn m =>
      if 0 < r then
        let rest := retryGo fetch (attempt + 1) r
        ⟨rest.outcome, (attempt + 1) * 2 :: rest.sleeps, rest.attempts + 1⟩
      else ⟨.error (.netError m), [], 1⟩

/-- `_request_with_retry(url, max_retries=3)`: `fetch n` is the outcome
of the `n`-th `requests.get` of the same URL. -/
def request_with_retry (fetch : Nat → FetchOutcome) (maxRetries : Nat := 3) :
    RetryResult :=
  retryGo fetch 0 maxRetries

/-! ## Catalog reader (`WooCommerceClient.get_all_products`) -/

/-- Raw WooCommerce attribute entry (`attr` dict). -/
structure RawAttr where
  name : Option String
  options : Option (List String)
deriving DecidableEq

/-- Raw image entry; `img['src']` is a mandatory key. -/
structure RawImage where
  src : String
deriving DecidableEq

/-- Raw category entry; `c['name']` is a mandatory key. -/
structure RawCategory where
  name : String
deriving DecidableEq

/-- Raw variation as returned by `get_product_variations`;
`v['id']` is a mandatory key, every other field is read with `.get`. -/
structure RawVariation where
  id : Int
  sku : Option String
  attributes : Option (List RawAttr)
  regular_price : Option String
  sale_price : Option String
  stock_quantity : Option Int
  stock_status : Option String
deriving DecidableEq

/-- One raw catalog item (`woo_product` dict), every field read with
`.get` modelled as optional. -/
structure CatalogItem where
  id : Option Int
  sku : Option String
  price : Option String
  regular_price : Option String
  sale_price : Option String
  stock_quantity : Option Int
  stock_status : Option String
  status : Option String
  name : Option String
  description : Option String
  short_description : Option String
  images : Option (List RawImage)
  categories : Option (List RawCategory)
  attributes : Option (List RawAttr)
  type : Option String
deriving DecidableEq

/-- `get_all_products`: accumulate pages (numbered from 1, page size
100) while pages stay full; an empty page or a short page terminates.
`pages` is the upstream catalog, `fuel` bounds the loop (the Python
`while True` needs no bound; any `fuel` at least the number of pages
actually requested is enough).  Returns the accumulated items and the
number of page requests performed. -/
def getAllProductsGo (pages : Nat → List CatalogItem) :
    Nat → Nat → List CatalogItem → Nat → List CatalogItem × Nat
  | 0, _, acc, reqs => (acc, reqs)
  | fuel + 1, page, acc, reqs =>
    let products := pages page
    if products.isEmpty then (acc, reqs + 1)
    else
      let acc := acc ++ products
      if products.length < 100 then (acc, reqs + 1)
      else getAllProductsGo pages fuel (page + 1) acc (reqs + 1)

/-- `get_all_products()` starting from page 1 with an empty accumulator. -/
def get_all_products (pages : Nat → List CatalogItem) (fuel : Nat) :
    List CatalogItem × Nat :=
  getAllProductsGo pages fuel 1 [] 0

/-! ## Item enricher (`process_woo_product` inside `full_sync_site`) -/

/-- One extracted variation record (the dict comprehension over
`client.get_product_variations(woo_id)`). -/
structure Variation where
  id : Int
  sku : String
  attributes : List RawAttr
  regular_price : String
  sale_price : String
  stock_quantity : Option Int
  stock_status : String
deriving DecidableEq

/-- The dict built for each raw variation `v`. -/
def rawToVariation (v : RawVariation) : Variation :=
  { id := v.id
    sku := v.sku.getD ""
    attributes := v.attributes.getD []
    regular_price := v.regular_price.getD ""
    sale_price := v.sale_price.getD ""
    stock_quantity := v.stock_quantity
    stock_status := v.stock_status.getD "instock" }

/-- Per-site content sub-dict (`name` / `description` /
`short_description`). -/
structure SiteContent where
  name : String
  description : String
  short_description : String
deriving DecidableEq

/-- The normalized `attributes` dict built for the primary site.  A
field is `none` when the corresponding key was never assigned; the
fold over the raw attribute list means a later raw attribute mapping
to the same key overwrites an earlier one, exactly like the Python
dict assignments. -/
structure CanonAttrs where
  gender : Option String
  season : Option String
  type : Option String
  version : Option String
  sleeve : Option String
  team : Option String
  events : Option (List String)
deriving DecidableEq

/-- Python `if attributes:` — the dict is empty iff no key was ever
assigned. -/
def CanonAttrs.isEmpty (a : CanonAttrs) : Bool :=
  a.gender.isNone && a.season.isNone && a.type.isNone && a.version.isNone &&
    a.sleeve.isNone && a.team.isNone && a.events.isNone

/-- The attribute-remapping loop: case-fold and space-strip the raw
name, take the first option for single-value keys (or `''` when the
option list is absent or empty), the full option list for
`event`/`events`. -/
def buildCanonAttrs (attrs : List RawAttr) : CanonAttrs :=
  attrs.foldl
    (fun acc attr =>
      let n := ((attr.name.getD "").toLower).replace " " ""
      let value : String :=
        match attr.options with
        | some (x :: _) => x
        | _ => ""
      if n = "genderage" ∨ n = "gender" then { acc with gender := some value }
      else if n = "season" then { acc with season := some value }
      else if n = "jerseytype" ∨ n = "type" then { acc with type := some value }
      else if n = "style" ∨ n = "version" then { acc with version := some value }
      else if n = "sleevelength" ∨ n = "sleeve" then { acc with sleeve := some value }
      else if n = "team" then { acc with team := some value }
      else if n = "event" ∨ n = "events" then { acc with events := some (attr.options.getD []) }
      else acc)
    ⟨none, none, none, none, none, none, none⟩

/-- The payload dict (`update_data`) produced by the enricher for one
item.  The nine per-site-keyed fields plus `woo_ids` are singleton
dicts keyed by the syncing site; the canonical fields are `none`
unless the site is the primary site `com`. -/
structure UpdateRecord where
  sku : String
  prices : SiteMap Rat
  regular_prices : SiteMap Rat
  stock_quantities : SiteMap Int
  stock_statuses : SiteMap String
  statuses : SiteMap String
  content : SiteMap SiteContent
  sync_status : SiteMap String
  last_synced_at : String
  woo_ids : SiteMap (Option Int)
  variations : SiteMap (List Variation)
  variation_counts : SiteMap Nat
  name : Option String
  images : Option (List String)
  categories : Option (List String)
  attributes : Option CanonAttrs

/-- The variation list for the site: fetched only for `variable`
items; a fetch failure is caught and degrades to `[]`. -/
def extractVariations (varFetch : Option Int → Except String (List RawVariation))
    (p : CatalogItem) : List Variation :=
  if p.type = some "variable" then
    match varFetch p.id with
    | .ok vs => vs.map rawToVariation
    | .error _ => []
  else []

/-- The `update_data` dict as built in `process_woo_product`, given the
already-parsed price values (the Python code computes the two `float`
calls first; their failure is handled in `process_woo_product`).  The
source assigns `variations` / `variation_counts` after the canonical
block; the final record update mirrors that. -/
def enrichData (site : Site)
    (varFetch : Option Int → Except String (List RawVariation))
    (now : String) (p : CatalogItem) (sk : String) (priceVal regVal : Rat) :
    UpdateRecord :=
  let base : UpdateRecord :=
    { sku := sk
      prices := siteSingleton site priceVal
      regular_prices := siteSingleton site regVal
      stock_quantities := siteSingleton site (pyOrInt p.stock_quantity 100)
      stock_statuses := siteSingleton site (p.stock_status.getD "instock")
      statuses := siteSingleton site (p.status.getD "publish")
      content := siteSingleton site
        { name := p.name.getD ""
          description := p.description.getD ""
          short_description := p.short_description.getD "" }
      sync_status := siteSingleton site "synced"
      last_synced_at := now
      woo_ids := siteSingleton site p.id
      variations := emptySiteMap
      variation_counts := emptySiteMap
      name := none
      images := none
      categories := none
      attributes := none }
  let withShared : UpdateRecord :=
    if site = "com" then
      let attrs := buildCanonAttrs (p.attributes.getD [])
      { base with
        name := some (p.name.getD "")
        images := some ((p.images.getD []).map RawImage.src)
        categories := some ((p.categories.getD []).map RawCategory.name)
        attributes := if attrs.isEmpty then none else some attrs }
    else base
  let site_variations := extractVariations varFetch p
  { withShared with
    variations := siteSingleton site site_variations
    variation_counts := siteSingleton site site_variations.length }

/-- Result of processing one item: `{'sku': .., 'success': True,
'data': ..}` or `{'sku': .., 'success': False, 'error': ..}`. -/
inductive EnrichResult where
  | ok (sku : String) (data : UpdateRecord)
  | err (sku : String) (error : String)

/-- `process_woo_product(woo_product)`: skip items without a SKU
(returns `None`), fail the item when a price string cannot be parsed
(the `ValueError` of `float` is caught by the `except` and reported
as a failed result), otherwise return the enriched payload. -/
def process_woo_product (site : Site)
    (varFetch : Option Int → Except String (List RawVariation))
    (now : String) (p : CatalogItem) : Option EnrichResult :=
  let sku := p.sku.getD ""
  if sku = "" then none
  else
    match floatOfPy p.sale_price p.price, floatOfPy p.regular_price p.price with
    | some a, some b => some (.ok sku (enrichData site varFetch now p sku a b))
    | _, _ => some (.err sku "could not convert string to float")

/-! ## Batch merger/writer (`batch_update_products`) -/

/-- One persisted row of the `products` table.  Per-site-keyed columns
are `Option (SiteMap _)`: `none` models a column that is NULL or not
dict-shaped (`safe_dict` coalesces it to `{}` on read). -/
structure StoredRecord where
  sku : String
  prices : Option (SiteMap Rat)
  regular_prices : Option (SiteMap Rat)
  stock_quantities : Option (SiteMap Int)
  stock_statuses : Option (SiteMap String)
  statuses : Option (SiteMap String)
  content : Option (SiteMap SiteContent)
  sync_status : Option (SiteMap String)
  variations : Option (SiteMap (List Variation))
  variation_counts : Option (SiteMap Nat)
  name : Option String
  images : Option (List String)
  categories : Option (List String)
  attributes : Option CanonAttrs
  last_synced_at : Option String

/-- The datastore: a partial map from SKU to stored row. -/
def Store : Type := String → Option StoredRecord

/-- The store with no rows. -/
def emptyStore : Store := fun _ => none

/-- The `merged` dict built for one update: the nine per-site-keyed
fields are shallow-merged (`{**safe_dict(existing.get(f)), **update.get(f, {})}`),
`last_synced_at` is taken from the update, and a canonical field is
present only when it is present on the update. -/
structure MergedRecord where
  sku : String
  prices : SiteMap Rat
  regular_prices : SiteMap Rat
  stock_quantities : SiteMap Int
  stock_statuses : SiteMap String
  statuses : SiteMap String
  content : SiteMap SiteContent
  sync_status : SiteMap String
  variations : SiteMap (List Variation)
  variation_counts : SiteMap Nat
  last_synced_at : String
  name : Option String
  images : Option (List String)
  categories : Option (List String)
  attributes : Option CanonAttrs

/-- Merge one update against the row read for its SKU
(`existing = existing_map.get(sku, {})`; a missing row behaves as `{}`,
whose every `.get` is `None` and is coalesced by `safe_dict`). -/
def mergeRecord (existing : Option StoredRecord) (u : UpdateRecord) :
    MergedRecord :=
  { sku := u.sku
    prices := dictMerge (safe_dict (existing.bind StoredRecord.prices)) u.prices
    regular_prices :=
      dictMerge (safe_dict (existing.bind StoredRecord.regular_prices)) u.regular_prices
    stock_quantities :=
      dictMerge (safe_dict (existing.bind StoredRecord.stock_quantities)) u.stock_quantities
    stock_statuses :=
      dictMerge (safe_dict (existing.bind StoredRecord.stock_statuses)) u.stock_statuses
    statuses := dictMerge (safe_dict (existing.bind StoredRecord.statuses)) u.statuses
    content := dictMerge (safe_dict (existing.bind StoredRecord.content)) u.content
    sync_status := dictMerge (safe_dict (existing.bind StoredRecord.sync_status)) u.sync_status
    variations := dictMerge (safe_dict (existing.bind StoredRecord.variations)) u.variations
    variation_counts :=
      dictMerge (safe_dict (existing.bind StoredRecord.variation_counts)) u.variation_counts
    last_synced_at := u.last_synced_at
    name := u.name
    images := u.images
    categories := u.categories
    attributes := u.attributes }

/-- Applying one merged row to a possibly existing row, with the upsert
contract (`on_conflict='sku'`): columns present in the payload are
written; a canonical column absent from the payload keeps the value of
the existing row (and is NULL on a freshly created row). -/
def applyMerged (old : Option StoredRecord) (m : MergedRecord) : StoredRecord :=
  { sku := m.sku
    prices := some m.prices
    regular_prices := some m.regular_prices
    stock_quantities := some m.stock_quantities
    stock_statuses := some m.stock_statuses
    statuses := some m.statuses
    content := some m.content
    sync_status := some m.sync_status
    variations := some m.variations
    variation_counts := some m.variation_counts
    name := match m.name with | some v => some v | none => old.bind StoredRecord.name
    images := match m.images with | some v => some v | none => old.bind StoredRecord.images
    categories :=
      match m.categories with | some v => some v | none => old.bind StoredRecord.categories
    attributes :=
      match m.attributes with | some v => some v | none => old.bind StoredRecord.attributes
    last_synced_at := some m.last_synced_at }

/-- Upsert one merged row into the store. -/
def applyUpsert (st : Store) (m : MergedRecord) : Store :=
  fun k => if k = m.sku then some (applyMerged (st m.sku) m) else st k

/-- `batch_update_products(supabase, updates, site)`: read the existing
rows for the batch SKUs in one bulk select (against the store as it is
before any write of this batch), merge every update against its
existing row, then bulk-upsert the merged rows keyed by SKU. -/
def batch_update_products (st : Store) (updates : List UpdateRecord) : Store :=
  (updates.map (fun u => mergeRecord (st u.sku) u)).foldl applyUpsert st

/-! ## Result-consuming loop of `full_sync_site` -/

/-- The shared `progress` dict plus the pending buffer, the failed-SKU
list and the datastore, i.e. everything the result-consuming loop
mutates. -/
structure LoopState where
  completed : Nat
  success : Nat
  failed : Nat
  cancelled : Bool
  pending : List UpdateRecord
  failed_skus : List String
  store : Store

/-- `BATCH_SIZE = 300`. -/
def BATCH_SIZE : Nat := 300

/-- Initial loop state over a given store. -/
def initLoopState (store : Store) : LoopState :=
  { completed := 0, success := 0, failed := 0, cancelled := false
    pending := [], failed_skus := [], store := store }

/-- One iteration of the `for future in as_completed(futures)` loop,
consuming one task result (`none` is a skipped item without SKU, which
does not touch the counters).  After the cancelled flag is set the
loop `break`s, so remaining results are not consumed.  The pending
buffer is flushed once it reaches `BATCH_SIZE`; every 50 completions
(and at `completed == total`) the Cancellation Oracle
(`check_if_cancelled`) is polled, `oracle c` being its answer when
`completed = c`. -/
def processResult (oracle : Nat → Bool) (total : Nat)
    (st : LoopState) (r : Option EnrichResult) : LoopState :=
  if st.cancelled then st
  else
    match r with
    | none => st
    | some res =>
      let st1 : LoopState :=
        match res with
        | .ok _ data =>
            { st with
              completed := st.completed + 1
              success := st.success + 1
              pending := st.pending ++ [data] }
        | .err sk _ =>
            { st with
              completed := st.completed + 1
              failed := st.failed + 1
              failed_skus := st.failed_skus ++ [sk] }
      let st2 : LoopState :=
        if BATCH_SIZE ≤ st1.pending.length then
          { st1 with store := batch_update_products st1.store st1.pending, pending := [] }
        else st1
      if st2.completed % 50 = 0 ∨ st2.completed = total then
        if oracle st2.completed then { st2 with cancelled := true } else st2
      else st2

/-- The whole result-consuming loop over the task results in
completion order. -/
def runLoop (oracle : Nat → Bool) (total : Nat) (store : Store)
    (results : List (Option EnrichResult)) : LoopState :=
  results.foldl (processResult oracle total) (initLoopState store)

/-- Terminal state of one site sync. -/
structure SyncOutcome where
  status : String
  store : Store
  completed : Nat
  success : Nat
  failed : Nat

/-- The epilogue of `full_sync_site`: the remaining pending buffer is
written only when the job was not cancelled
(`if pending_updates and not progress['cancelled']`), and the terminal
status is `'cancelled'` or `'completed'`. -/
def finalizeSync (st : LoopState) : SyncOutcome :=
  let st :=
    if st.pending.isEmpty = false ∧ st.cancelled = false then
      { st with store := batch_update_products st.store st.pending, pending := [] }
    else st
  { status := if st.cancelled then "cancelled" else "completed"
    store := st.store
    completed := st.completed
    success := st.success
    failed := st.failed }

/-- A full pass of the result-consuming loop followed by the epilogue. -/
def runSiteSyncLoop (oracle : Nat → Bool) (total : Nat) (store : Store)
    (results : List (Option EnrichResult)) : SyncOutcome :=
  finalizeSync (runLoop oracle total store results)

/-! ## Basic lemmas about the embedded dictionaries -/

theorem siteSingleton_apply_self {V : Type} (site : Site) (v : V) :
    siteSingleton site v site = some v := by
  simp [siteSingleton]

theorem siteSingleton_apply_ne {V : Type} (site : Site) (v : V) {s : Site}
    (h : s ≠ site) : siteSingleton site v s = none := by
  simp [siteSingleton, h]

theorem dictMerge_apply_none {V : Type} (e u : SiteMap V) (s : Site)
    (h : u s = none) : dictMerge e u s = e s := by
  simp [dictMerge, h]

theorem dictMerge_apply_some {V : Type} (e u : SiteMap V) (s : Site) {v : V}
    (h : u s = some v) : dictMerge e u s = some v := by
  simp [dictMerge, h]

/-- Merging the same dict twice is absorbed by the first merge. -/
theorem dictMerge_absorb {V : Type} (e u : SiteMap V) :
    dictMerge (dictMerge e u) u = dictMerge e u := by
  funext s
  unfold dictMerge
  cases u s <;> simp

/-! ## Projections of the enricher payload -/

theorem enrichData_sku (site varFetch now p sk a b) :
    (enrichData site varFetch now p sk a b).sku = sk := by
  unfold enrichData
  split <;> rfl

theorem enrichData_prices (site varFetch now p sk a b) :
    (enrichData site varFetch now p sk a b).prices = siteSingleton site a := by
  unfold enrichData
  split <;> rfl

theorem enrichData_regular_prices (site varFetch now p sk a b) :
    (enrichData site varFetch now p sk a b).regular_prices = siteSingleton site b := by
  unfold enrichData
  split <;> rfl

theorem enrichData_stock_quantities (site varFetch now p sk a b) :
    (enrichData site varFetch now p sk a b).stock_quantities =
      siteSingleton site (pyOrInt p.stock_quantity 100) := by
  unfold enrichData
  split <;> rfl

theorem enrichData_stock_statuses (site varFetch now p sk a b) :
    (enrichData site varFetch now p sk a b).stock_statuses =
      siteSingleton site (p.stock_status.getD "instock") := by
  unfold enrichData
  split <;> rfl

theorem enrichData_statuses (site varFetch now p sk a b) :
    (enrichData site varFetch now p sk a b).statuses =
      siteSingleton site (p.status.getD "publish") := by
  unfold enrichData
  split <;> rfl

theorem enrichData_variations (site varFetch now p sk a b) :
    (enrichData site varFetch now p sk a b).variations =
      siteSingleton site (extractVariations varFetch p) := rfl

theorem enrichData_variation_counts (site varFetch now p sk a b) :
    (enrichData site varFetch now p sk a b).variation_counts =
      siteSingleton site (extractVariations varFetch p).length := rfl

theorem enrichData_name_ne_com (site varFetch now p sk a b)
    (h : site ≠ "com") :
    (enrichData site varFetch now p sk a b).name = none := by
  unfold enrichData
  simp [h]

theorem enrichData_images_ne_com (site varFetch now p sk a b)
    (h : site ≠ "com") :
    (enrichData site varFetch now p sk a b).images = none := by
  unfold enrichData
  simp [h]

theorem enrichData_categories_ne_com (site varFetch now p sk a b)
    (h : site ≠ "com") :
    (enrichData site varFetch now p sk a b).categories = none := by
  unfold enrichData
  simp [h]

theorem enrichData_attributes_ne_com (site varFetch now p sk a b)
    (h : site ≠ "com") :
    (enrichData site varFetch now p sk a b).attributes = none := by
  unfold enrichData
  simp [h]

/-- Inversion of a successful enrichment: the item had a SKU, both
price strings parsed, and the payload is `enrichData`. -/
theorem process_ok_inv {site varFetch now p sk d}
    (h : process_woo_product site varFetch now p = some (.ok sk d)) :
    p.sku.getD "" ≠ "" ∧ sk = p.sku.getD "" ∧
      ∃ a b, floatOfPy p.sale_price p.price = some a ∧
        floatOfPy p.regular_price p.price = some b ∧
        d = enrichData site varFetch now p sk a b := by
  unfold process_woo_product at h
  by_cases hs : p.sku.getD "" = ""
  · simp [hs] at h
  · refine ⟨hs, ?_⟩
    rw [if_neg hs] at h
    cases ha : floatOfPy p.sale_price p.price with
    | none => rw [ha] at h; simp at h
    | some a =>
      cases hb : floatOfPy p.regular_price p.price with
      | none => rw [ha, hb] at h; simp at h
      | some b =>
        rw [ha, hb] at h
        simp only [Option.some.injEq] at h
        cases h with
        | refl => exact ⟨rfl, a, b, rfl, rfl, rfl⟩

/-! ## Claim C1: the batch merge preserves foreign-site entries -/

/-- C1: for every batch upsert for site `A`, and for every
per-site-keyed field of an existing `ProductRecord` that carries an
entry for another site `B`, the merged record contains `B`'s entry
unchanged: each field is the shallow merge of `safe_dict` of the
existing field with the update field, the update carrying only key
`A`; a field that is absent or non-map-shaped on the existing record
behaves as the empty map. -/
theorem merge_preserves_foreign_sites
    (existing : Option StoredRecord) (u : UpdateRecord) (A B : Site)
    (hBA : B ≠ A)
    (hp : ∀ s, s ≠ A → u.prices s = none)
    (hrp : ∀ s, s ≠ A → u.regular_prices s = none)
    (hsq : ∀ s, s ≠ A → u.stock_quantities s = none)
    (hss : ∀ s, s ≠ A → u.stock_statuses s = none)
    (hst : ∀ s, s ≠ A → u.statuses s = none)
    (hc : ∀ s, s ≠ A → u.content s = none)
    (hsy : ∀ s, s ≠ A → u.sync_status s = none)
    (hv : ∀ s, s ≠ A → u.variations s = none)
    (hvc : ∀ s, s ≠ A → u.variation_counts s = none) :
    (mergeRecord existing u).prices B = safe_dict (existing.bind StoredRecord.prices) B ∧
    (mergeRecord existing u).regular_prices B =
      safe_dict (existing.bind StoredRecord.regular_prices) B ∧
    (mergeRecord existing u).stock_quantities B =
      safe_dict (existing.bind StoredRecord.stock_quantities) B ∧
    (mergeRecord existing u).stock_statuses B =
      safe_dict (existing.bind StoredRecord.stock_statuses) B ∧
    (mergeRecord existing u).statuses B = safe_dict (existing.bind StoredRecord.statuses) B ∧
    (mergeRecord existing u).content B = safe_dict (existing.bind StoredRecord.content) B ∧
    (mergeRecord existing u).sync_status B =
      safe_dict (existing.bind StoredRecord.sync_status) B ∧
    (mergeRecord existing u).variations B =
      safe_dict (existing.bind StoredRecord.variations) B ∧
    (mergeRecord existing u).variation_counts B =
      safe_dict (existing.bind StoredRecord.variation_counts) B :=
  ⟨dictMerge_apply_none _ _ _ (hp B hBA),
   dictMerge_apply_none _ _ _ (hrp B hBA),
   dictMerge_apply_none _ _ _ (hsq B hBA),
   dictMerge_apply_none _ _ _ (hss B hBA),
   dictMerge_apply_none _ _ _ (hst B hBA),
   dictMerge_apply_none _ _ _ (hc B hBA),
   dictMerge_apply_none _ _ _ (hsy B hBA),
   dictMerge_apply_none _ _ _ (hv B hBA),
   dictMerge_apply_none _ _ _ (hvc B hBA)⟩

/-- A stored row carrying per-site data for site `de` only. -/
def sampleStoredDe : StoredRecord :=
  { sku := "SKU1"
    prices := some (siteSingleton "de" 9)
    regular_prices := some (siteSingleton "de" 12)
    stock_quantities := some (siteSingleton "de" 5)
    stock_statuses := some (siteSingleton "de" "instock")
    statuses := some (siteSingleton "de" "publish")
    content := some (siteSingleton "de" ⟨"N", "D", "S"⟩)
    sync_status := some (siteSingleton "de" "synced")
    variations := some (siteSingleton "de" [])
    variation_counts := some (siteSingleton "de" 0)
    name := some "Shirt"
    images := some []
    categories := some []
    attributes := none
    last_synced_at := some "T0" }

/-- An enricher payload for site `com`, keying every per-site field at
`com` only. -/
def sampleComUpdate : UpdateRecord :=
  { sku := "SKU1"
    prices := siteSingleton "com" 10
    regular_prices := siteSingleton "com" 15
    stock_quantities := siteSingleton "com" 3
    stock_statuses := siteSingleton "com" "instock"
    statuses := siteSingleton "com" "publish"
    content := siteSingleton "com" ⟨"A", "B", "C"⟩
    sync_status := siteSingleton "com" "synced"
    last_synced_at := "T1"
    woo_ids := siteSingleton "com" (some 1)
    variations := siteSingleton "com" []
    variation_counts := siteSingleton "com" 0
    name := some "Shirt"
    images := some ["u"]
    categories := some ["c"]
    attributes := none }

/-- Witness for C1 at a concrete existing row with `de` data and a
concrete update keyed at `com`. -/
theorem merge_preserves_foreign_sites_witness :
    (mergeRecord (some sampleStoredDe) sampleComUpdate).prices "de" =
      safe_dict ((some sampleStoredDe).bind StoredRecord.prices) "de" ∧
    (mergeRecord (some sampleStoredDe) sampleComUpdate).regular_prices "de" =
      safe_dict ((some sampleStoredDe).bind StoredRecord.regular_prices) "de" ∧
    (mergeRecord (some sampleStoredDe) sampleComUpdate).stock_quantities "de" =
      safe_dict ((some sampleStoredDe).bind StoredRecord.stock_quantities) "de" ∧
    (mergeRecord (some sampleStoredDe) sampleComUpdate).stock_statuses "de" =
      safe_dict ((some sampleStoredDe).bind StoredRecord.stock_statuses) "de" ∧
    (mergeRecord (some sampleStoredDe) sampleComUpdate).statuses "de" =
      safe_dict ((some sampleStoredDe).bind StoredRecord.statuses) "de" ∧
    (mergeRecord (some sampleStoredDe) sampleComUpdate).content "de" =
      safe_dict ((some sampleStoredDe).bind StoredRecord.content) "de" ∧
    (mergeRecord (some sampleStoredDe) sampleComUpdate).sync_status "de" =
      safe_dict ((some sampleStoredDe).bind StoredRecord.sync_status) "de" ∧
    (mergeRecord (some sampleStoredDe) sampleComUpdate).variations "de" =
      safe_dict ((some sampleStoredDe).bind StoredRecord.variations) "de" ∧
    (mergeRecord (some sampleStoredDe) sampleComUpdate).variation_counts "de" =
      safe_dict ((some sampleStoredDe).bind StoredRecord.variation_counts) "de" :=
  merge_preserves_foreign_sites (some sampleStoredDe) sampleComUpdate "com" "de"
    (by decide)
    (fun s hs => siteSingleton_apply_ne "com" _ hs)
    (fun s hs => siteSingleton_apply_ne "com" _ hs)
    (fun s hs => siteSingleton_apply_ne "com" _ hs)
    (fun s hs => siteSingleton_apply_ne "com" _ hs)
    (fun s hs => siteSingleton_apply_ne "com" _ hs)
    (fun s hs => siteSingleton_apply_ne "com" _ hs)
    (fun s hs => siteSingleton_apply_ne "com" _ hs)
    (fun s hs => siteSingleton_apply_ne "com" _ hs)
    (fun s hs => siteSingleton_apply_ne "com" _ hs)

/-! ## Claims C9 and C10: fallback defaults of the enricher -/

/-- C9: an item with a missing `stock_quantity` produces
`stock_quantities[site] = 100`, a missing `stock_status` produces
`stock_statuses[site] = "instock"`, and a missing lifecycle `status`
produces `statuses[site] = "publish"`. -/
theorem fallback_defaults (site : Site)
    (varFetch : Option Int → Except String (List RawVariation))
    (now : String) (p : CatalogItem) (sk : String) (d : UpdateRecord)
    (h : process_woo_product site varFetch now p = some (.ok sk d)) :
    (p.stock_quantity = none → d.stock_quantities site = some 100) ∧
    (p.stock_status = none → d.stock_statuses site = some "instock") ∧
    (p.status = none → d.statuses site = some "publish") := by
  obtain ⟨-, -, a, b, -, -, rfl⟩ := process_ok_inv h
  refine ⟨fun hq => ?_, fun hs => ?_, fun hst => ?_⟩
  · rw [enrichData_stock_quantities, hq]
    simp [pyOrInt, siteSingleton]
  · rw [enrichData_stock_statuses, hs]
    simp [siteSingleton]
  · rw [enrichData_statuses, hst]
    simp [siteSingleton]

/-- An item missing price, stock, and status fields altogether. -/
def sampleBareItem : CatalogItem :=
  { id := some 7
    sku := some "SKU2"
    price := none
    regular_price := none
    sale_price := none
    stock_quantity := none
    stock_status := none
    status := none
    name := none
    description := none
    short_description := none
    images := none
    categories := none
    attributes := none
    type := none }

/-- A variation fetcher that always fails (never consulted for
non-variable items). -/
def failVarFetch : Option Int → Except String (List RawVariation) :=
  fun _ => .error "boom"

/-- The payload the enricher produces for `sampleBareItem` on site
`uk`. -/
def sampleBareData : UpdateRecord :=
  enrichData "uk" failVarFetch "T1" sampleBareItem "SKU2" 0 0

/-- Witness for C9: the enricher run on `sampleBareItem` succeeds and
produces all three fallback defaults. -/
theorem fallback_defaults_witness :
    process_woo_product "uk" failVarFetch "T1" sampleBareItem =
      some (.ok "SKU2" sampleBareData) ∧
    sampleBareData.stock_quantities "uk" = some 100 ∧
    sampleBareData.stock_statuses "uk" = some "instock" ∧
    sampleBareData.statuses "uk" = some "publish" := by
  have h : process_woo_product "uk" failVarFetch "T1" sampleBareItem =
      some (.ok "SKU2" sampleBareData) := rfl
  have c := fallback_defaults "uk" failVarFetch "T1" sampleBareItem "SKU2" sampleBareData h
  exact ⟨h, c.1 rfl, c.2.1 rfl, c.2.2 rfl⟩

/-- C10: an item whose `stock_quantity` is present and equal to `0`
also produces `stock_quantities[site] = 100`, exactly as a missing
field does: the falsy coalescing `stock_quantity or 100` cannot
represent a genuine zero stock quantity. -/
theorem zero_stock_coalesced (site : Site)
    (varFetch : Option Int → Except String (List RawVariation))
    (now : String) (p : CatalogItem) (sk : String) (d : UpdateRecord)
    (hq : p.stock_quantity = some 0)
    (h : process_woo_product site varFetch now p = some (.ok sk d)) :
    d.stock_quantities site = some 100 ∧
    pyOrInt (some 0) 100 = pyOrInt none 100 := by
  obtain ⟨-, -, a, b, -, -, rfl⟩ := process_ok_inv h
  constructor
  · rw [enrichData_stock_quantities, hq]
    simp [pyOrInt, siteSingleton]
  · rfl

/-- `sampleBareItem` with an explicit zero stock quantity. -/
def sampleZeroStockItem : CatalogItem :=
  { sampleBareItem with stock_quantity := some 0 }

/-- The payload the enricher produces for `sampleZeroStockItem`. -/
def sampleZeroStockData : UpdateRecord :=
  enrichData "uk" failVarFetch "T1" sampleZeroStockItem "SKU2" 0 0

/-- Witness for C10: a concrete zero-stock item is coalesced to 100. -/
theorem zero_stock_coalesced_witness :
    process_woo_product "uk" failVarFetch "T1" sampleZeroStockItem =
      some (.ok "SKU2" sampleZeroStockData) ∧
    sampleZeroStockData.stock_quantities "uk" = some 100 ∧
    pyOrInt (some 0) 100 = pyOrInt none 100 := by
  have h : process_woo_product "uk" failVarFetch "T1" sampleZeroStockItem =
      some (.ok "SKU2" sampleZeroStockData) := rfl
  have c := zero_stock_coalesced "uk" failVarFetch "T1" sampleZeroStockItem
    "SKU2" sampleZeroStockData rfl h
  exact ⟨h, c.1, c.2⟩

/-! ## Claims C3 and C6: the retry gate -/

/-- Unfolding of one loop iteration of the retry gate. -/
theorem retryGo_succ (fetch : Nat → FetchOutcome) (attempt r : Nat) :
    retryGo fetch attempt (r + 1) =
      match fetch attempt with
      | .resp status =>
        if status = 503 ∧ 0 < r then
          ⟨(retryGo fetch (attempt + 1) r).outcome,
            (attempt + 1) * 2 :: (retryGo fetch (attempt + 1) r).sleeps,
            (retryGo fetch (attempt + 1) r).attempts + 1⟩
        else if 400 ≤ status then
          if 0 < r then
            ⟨(retryGo fetch (attempt + 1) r).outcome,
              (attempt + 1) * 2 :: (retryGo fetch (attempt + 1) r).sleeps,
              (retryGo fetch (attempt + 1) r).attempts + 1⟩
          else ⟨.error (.httpError status), [], 1⟩
        else ⟨.ok status, [], 1⟩
      | .exn m =>
        if 0 < r then
          ⟨(retryGo fetch (attempt + 1) r).outcome,
            (attempt + 1) * 2 :: (retryGo fetch (attempt + 1) r).sleeps,
            (retryGo fetch (attempt + 1) r).attempts + 1⟩
        else ⟨.error (.netError m), [], 1⟩ := rfl

/-- An always-404 upstream: the gate still makes all 3 attempts with
backoff sleeps of 2 and 4 seconds before surfacing the `HTTPError`. -/
theorem always404_retry_trace :
    request_with_retry (fun _ => .resp 404) =
      ⟨.error (.httpError 404), [2, 4], 3⟩ := rfl

/-- C3 counterexample: the claim says a non-transient 4xx error fails
on the first attempt with no retry and no backoff sleep; on an
always-404 upstream the gate in fact performs 3 attempts and sleeps
twice, so the first-attempt/no-sleep behaviour is refuted. -/
theorem non_transient_retry_counterexample :
    ¬((request_with_retry (fun _ => .resp 404)).attempts = 1 ∧
      (request_with_retry (fun _ => .resp 404)).sleeps = []) ∧
    (request_with_retry (fun _ => .resp 404)).attempts = 3 ∧
    (request_with_retry (fun _ => .resp 404)).sleeps = [2, 4] ∧
    (request_with_retry (fun _ => .resp 404)).outcome = .error (.httpError 404) := by
  refine ⟨?_, rfl, rfl, rfl⟩
  intro hcl
  have := hcl.1
  rw [always404_retry_trace] at this
  simp at this

/-- C3 amended: an HTTP 4xx status other than the rate-limit status is
not failed immediately — `raise_for_status`'s `HTTPError` is caught by
the same `except RequestException` handler as a transport error, so
the gate retries it like a transient failure: 3 attempts with backoff
sleeps of 2 and 4 seconds, then the HTTP error surfaces to the
caller. -/
theorem non_transient_is_retried (status : Nat) (fetch : Nat → FetchOutcome)
    (h4 : 400 ≤ status) (h5 : status < 500)
    (hf : ∀ n, fetch n = .resp status) :
    request_with_retry fetch = ⟨.error (.httpError status), [2, 4], 3⟩ := by
  have hns : ¬(status = 503 ∧ 0 < (2 : Nat)) := by omega
  have hns1 : ¬(status = 503 ∧ 0 < (1 : Nat)) := by omega
  have hns0 : ¬(status = 503 ∧ 0 < (0 : Nat)) := by omega
  have e2 : retryGo fetch 2 1 = ⟨.error (.httpError status), [], 1⟩ := by
    have := retryGo_succ fetch 2 0
    rw [hf 2] at this
    simpa [hns0, h4] using this
  have e1 : retryGo fetch 1 2 = ⟨.error (.httpError status), [4], 2⟩ := by
    have := retryGo_succ fetch 1 1
    rw [hf 1] at this
    simp only [hns1, if_false, h4, if_true, if_pos (by norm_num : (0:Nat) < 1)] at this
    simpa [e2] using this
  have e0 : retryGo fetch 0 3 = ⟨.error (.httpError status), [2, 4], 3⟩ := by
    have := retryGo_succ fetch 0 2
    rw [hf 0] at this
    simp only [hns, if_false, h4, if_true, if_pos (by norm_num : (0:Nat) < 2)] at this
    simpa [e1] using this
  simpa [request_with_retry] using e0

/-- Witness for C3's amended theorem at status 404. -/
theorem non_transient_is_retried_witness :
    request_with_retry (fun _ => .resp 404) =
      ⟨.error (.httpError 404), [2, 4], 3⟩ :=
  non_transient_is_retried 404 (fun _ => .resp 404)
    (by norm_num) (by norm_num) (fun _ => rfl)

/-- A transient attempt outcome: the rate-limit-class status 503 or a
network-transport exception. -/
def TransientOutcome (o : FetchOutcome) : Prop :=
  o = .resp 503 ∨ ∃ m, o = .exn m

/-- A transient failure with a retry left sleeps `(attempt+1)*2`
seconds and loops. -/
theorem retryGo_transient_step (fetch : Nat → FetchOutcome) (attempt r : Nat)
    (h : TransientOutcome (fetch attempt)) (hr : 0 < r) :
    retryGo fetch attempt (r + 1) =
      ⟨(retryGo fetch (attempt + 1) r).outcome,
        (attempt + 1) * 2 :: (retryGo fetch (attempt + 1) r).sleeps,
        (retryGo fetch (attempt + 1) r).attempts + 1⟩ := by
  have e := retryGo_succ fetch attempt r
  rcases h with h | ⟨m, h⟩ <;> rw [h] at e
  · simpa [hr] using e
  · simpa [hr] using e

/-- A transient failure on the last attempt surfaces an error without
sleeping. -/
theorem retryGo_transient_last (fetch : Nat → FetchOutcome) (attempt : Nat)
    (h : TransientOutcome (fetch attempt)) :
    ∃ e, retryGo fetch attempt 1 = ⟨.error e, [], 1⟩ := by
  have eq1 := retryGo_succ fetch attempt 0
  rcases h with h | ⟨m, h⟩ <;> rw [h] at eq1
  · exact ⟨.httpError 503, by simpa using eq1⟩
  · exact ⟨.netError m, by simpa using eq1⟩

/-- C6: a request that fails transiently on every attempt is attempted
exactly 3 times (2 retries), with backoff sleeps of `(attempt+1)*2`
seconds — 2s after the first failure, 4s after the second, none after
the final attempt — before the failure propagates to the caller. -/
theorem retry_bound_transient (fetch : Nat → FetchOutcome)
    (htr : ∀ n, TransientOutcome (fetch n)) :
    (request_with_retry fetch).attempts = 3 ∧
    (request_with_retry fetch).sleeps = [2, 4] ∧
    ∃ e, (request_with_retry fetch).outcome = .error e := by
  obtain ⟨e, elast⟩ := retryGo_transient_last fetch 2 (htr 2)
  have s1 : retryGo fetch 1 2 =
      ⟨(retryGo fetch 2 1).outcome, 4 :: (retryGo fetch 2 1).sleeps,
        (retryGo fetch 2 1).attempts + 1⟩ := by
    simpa using retryGo_transient_step fetch 1 1 (htr 1) (by norm_num)
  have s0 : retryGo fetch 0 3 =
      ⟨(retryGo fetch 1 2).outcome, 2 :: (retryGo fetch 1 2).sleeps,
        (retryGo fetch 1 2).attempts + 1⟩ := by
    simpa using retryGo_transient_step fetch 0 2 (htr 0) (by norm_num)
  have : request_with_retry fetch = retryGo fetch 0 3 := rfl
  rw [this, s0, s1, elast]
  exact ⟨rfl, rfl, e, rfl⟩

/-- Witness for C6 on an always-503 upstream. -/
theorem retry_bound_transient_witness :
    (request_with_retry (fun _ => .resp 503)).attempts = 3 ∧
    (request_with_retry (fun _ => .resp 503)).sleeps = [2, 4] ∧
    ∃ e, (request_with_retry (fun _ => .resp 503)).outcome = .error e :=
  retry_bound_transient (fun _ => .resp 503) (fun _ => Or.inl rfl)

/-! ## Claim C7: pagination of the catalog reader -/

/-- Specification of the pagination loop: after `n` full pages
starting at `start` and a short page at `start + n`, the loop returns
the concatenation of pages `start .. start + n` appended to the
accumulator and has made `n + 1` page requests. -/
theorem getAllProductsGo_spec (pages : Nat → List CatalogItem) :
    ∀ (n start : Nat) (acc : List CatalogItem) (reqs fuel : Nat),
      (∀ p, start ≤ p → p < start + n → (pages p).length = 100) →
      (pages (start + n)).length < 100 →
      n < fuel →
      getAllProductsGo pages fuel start acc reqs =
        (acc ++ (List.range' start (n + 1)).flatMap pages, reqs + (n + 1)) := by
  intro n
  induction n with
  | zero =>
    intro start acc reqs fuel _ hshort hfuel
    obtain ⟨f, rfl⟩ : ∃ f, fuel = f + 1 := ⟨fuel - 1, by omega⟩
    rw [Nat.add_zero] at hshort
    by_cases he : (pages start).isEmpty
    · have hpe : pages start = [] := List.isEmpty_iff.mp he
      simp [getAllProductsGo, he, hpe, List.range'_one]
    · simp [getAllProductsGo, he, hshort, List.range'_one]
  | succ n ih =>
    intro start acc reqs fuel hfull hshort hfuel
    obtain ⟨f, rfl⟩ : ∃ f, fuel = f + 1 := ⟨fuel - 1, by omega⟩
    have h100 : (pages start).length = 100 :=
      hfull start (Nat.le_refl start) (by omega)
    have hne : (pages start).isEmpty = false := by
      cases hp : pages start with
      | nil => rw [hp] at h100; simp at h100
      | cons x xs => simp [hp]
    have hrec := ih (start + 1) (acc ++ pages start) (reqs + 1) f
      (fun p hp1 hp2 => hfull p (by omega) (by omega))
      (by rw [show start + 1 + n = start + (n + 1) by omega]; exact hshort)
      (by omega)
    have hstep : getAllProductsGo pages (f + 1) start acc reqs =
        getAllProductsGo pages f (start + 1) (acc ++ pages start) (reqs + 1) := by
      simp [getAllProductsGo, hne, h100]
    rw [hstep, hrec]
    simp only [Prod.mk.injEq]
    constructor
    · conv_rhs => rw [List.range'_succ, List.flatMap_cons]
      rw [List.append_assoc]
    · omega

/-- Length of the concatenation of `n` full pages and the final short
page. -/
theorem flatMap_pages_length (pages : Nat → List CatalogItem) :
    ∀ (n start : Nat),
      (∀ p, start ≤ p → p < start + n → (pages p).length = 100) →
      ((List.range' start (n + 1)).flatMap pages).length =
        n * 100 + (pages (start + n)).length := by
  intro n
  induction n with
  | zero =>
    intro start _
    simp [List.range'_one]
  | succ n ih =>
    intro start hfull
    have h100 : (pages start).length = 100 :=
      hfull start (Nat.le_refl start) (by omega)
    have hrec := ih (start + 1) (fun p hp1 hp2 => hfull p (by omega) (by omega))
    rw [List.range'_succ, List.flatMap_cons, List.length_append, h100, hrec,
      show start + 1 + n = start + (n + 1) by omega]
    ring

/-- C7: against a catalog returning full pages of 100 for pages
`1 .. N-1` and `M < 100` items on page `N`, the reader returns exactly
the pages `1 .. N` concatenated in page order — `(N-1)*100 + M` items
in upstream order — and performs exactly `N` page requests (none for
page `N+1`); `M = 0`, an empty page, also terminates pagination. -/
theorem pagination_termination (pages : Nat → List CatalogItem)
    (N M fuel : Nat) (hN : 1 ≤ N)
    (hfull : ∀ p, 1 ≤ p → p < N → (pages p).length = 100)
    (hM : (pages N).length = M) (hMlt : M < 100) (hfuel : N ≤ fuel) :
    get_all_products pages fuel = ((List.range' 1 N).flatMap pages, N) ∧
    (get_all_products pages fuel).1.length = (N - 1) * 100 + M := by
  obtain ⟨n, rfl⟩ : ∃ n, N = n + 1 := ⟨N - 1, by omega⟩
  have hshort : (pages (1 + n)).length < 100 := by
    rw [show 1 + n = n + 1 by omega, hM]; exact hMlt
  have h1 := getAllProductsGo_spec pages n 1 [] 0 fuel
    (fun p hp1 hp2 => hfull p hp1 (by omega)) hshort (by omega)
  have h2 : get_all_products pages fuel = ((List.range' 1 (n + 1)).flatMap pages, n + 1) := by
    rw [get_all_products, h1]
    simp
  refine ⟨h2, ?_⟩
  rw [h2]
  have h3 := flatMap_pages_length pages n 1 (fun p hp1 hp2 => hfull p hp1 (by omega))
  simp only [h3, show 1 + n = n + 1 by omega, hM]
  omega

/-- A concrete upstream catalog: page 1 full, page 2 with 3 items. -/
def samplePages : Nat → List CatalogItem :=
  fun p =>
    if p = 1 then List.replicate 100 sampleBareItem
    else if p = 2 then [sampleBareItem, sampleBareItem, sampleBareItem]
    else []

/-- Witness for C7: `N = 2`, `M = 3` on `samplePages`. -/
theorem pagination_termination_witness :
    get_all_products samplePages 5 = ((List.range' 1 2).flatMap samplePages, 2) ∧
    (get_all_products samplePages 5).1.length = (2 - 1) * 100 + 3 :=
  pagination_termination samplePages 2 3 5 (by norm_num)
    (fun p hp1 hp2 => by
      have : p = 1 := by omega
      subst this
      simp [samplePages])
    (by simp [samplePages]) (by norm_num) (by norm_num)

/-! ## Claims C4 and C5: invariants of one upserted update -/

theorem mergeRecord_sku (e : Option StoredRecord) (u : UpdateRecord) :
    (mergeRecord e u).sku = u.sku := rfl

/-- Looking up the SKU of a one-element batch after the upsert. -/
theorem batch_single_lookup (st : Store) (u : UpdateRecord) :
    batch_update_products st [u] u.sku =
      some (applyMerged (st u.sku) (mergeRecord (st u.sku) u)) := by
  show applyUpsert st (mergeRecord (st u.sku) u) u.sku = _
  unfold applyUpsert
  rw [mergeRecord_sku]
  simp

/-- C4: every successfully enriched item's payload satisfies
`variation_counts[site] = len(variations[site])`; the count is 0 with
an empty list for non-variant items and for items whose variant fetch
failed; and the batch writer stores both maps together, so the
equality holds on the stored row for the syncing site. -/
theorem variation_count_invariant (site : Site)
    (varFetch : Option Int → Except String (List RawVariation))
    (now : String) (p : CatalogItem) (sk : String) (d : UpdateRecord)
    (h : process_woo_product site varFetch now p = some (.ok sk d)) :
    d.variation_counts site = (d.variations site).map List.length ∧
    (p.type ≠ some "variable" → d.variations site = some []) ∧
    (∀ msg, varFetch p.id = .error msg → d.variations site = some []) ∧
    ∀ st : Store,
      (batch_update_products st [d] sk).bind
          (fun r => safe_dict r.variations site) = d.variations site ∧
      (batch_update_products st [d] sk).bind
          (fun r => safe_dict r.variation_counts site) = d.variation_counts site := by
  obtain ⟨-, hsk, a, b, -, -, rfl⟩ := process_ok_inv h
  set d := enrichData site varFetch now p sk a b with hd
  have hvar : d.variations site = some (extractVariations varFetch p) := by
    rw [hd, enrichData_variations, siteSingleton_apply_self]
  have hcnt : d.variation_counts site = some (extractVariations varFetch p).length := by
    rw [hd, enrichData_variation_counts, siteSingleton_apply_self]
  have hdsk : d.sku = sk := by rw [hd, enrichData_sku]
  refine ⟨?_, ?_, ?_, ?_⟩
  · rw [hvar, hcnt]
    rfl
  · intro ht
    rw [hvar]
    unfold extractVariations
    rw [if_neg ht]
  · intro msg hmsg
    rw [hvar]
    unfold extractVariations
    by_cases ht : p.type = some "variable"
    · rw [if_pos ht, hmsg]
    · rw [if_neg ht]
  · intro st
    have hlk := batch_single_lookup st d
    rw [hdsk] at hlk
    rw [hlk]
    constructor
    · show safe_dict (applyMerged (st sk) (mergeRecord (st sk) d)).variations site = _
      show safe_dict (some (mergeRecord (st sk) d).variations) site = _
      show (mergeRecord (st sk) d).variations site = _
      rw [hvar]
      exact dictMerge_apply_some _ _ _ hvar
    · show safe_dict (applyMerged (st sk) (mergeRecord (st sk) d)).variation_counts site = _
      show safe_dict (some (mergeRecord (st sk) d).variation_counts) site = _
      show (mergeRecord (st sk) d).variation_counts site = _
      rw [hcnt]
      exact dictMerge_apply_some _ _ _ hcnt

/-- A variable item on site `uk` whose variant fetch succeeds with one
variation. -/
def sampleVarItem : CatalogItem :=
  { sampleBareItem with sku := some "SKU3", type := some "variable" }

/-- A variation fetcher returning one raw variation for every id. -/
def okVarFetch : Option Int → Except String (List RawVariation) :=
  fun _ => .ok [{ id := 11, sku := some "SKU3-S", attributes := none,
                  regular_price := none, sale_price := none,
                  stock_quantity := some 4, stock_status := none }]

/-- The payload the enricher produces for `sampleVarItem`. -/
def sampleVarData : UpdateRecord :=
  enrichData "uk" okVarFetch "T1" sampleVarItem "SKU3" 0 0

/-- Witness for C4 on `sampleVarItem` against the empty store. -/
theorem variation_count_invariant_witness :
    process_woo_product "uk" okVarFetch "T1" sampleVarItem =
      some (.ok "SKU3" sampleVarData) ∧
    sampleVarData.variation_counts "uk" =
      (sampleVarData.variations "uk").map List.length ∧
    (batch_update_products emptyStore [sampleVarData] "SKU3").bind
        (fun r => safe_dict r.variations "uk") = sampleVarData.variations "uk" ∧
    (batch_update_products emptyStore [sampleVarData] "SKU3").bind
        (fun r => safe_dict r.variation_counts "uk") =
      sampleVarData.variation_counts "uk" := by
  have h : process_woo_product "uk" okVarFetch "T1" sampleVarItem =
      some (.ok "SKU3" sampleVarData) := rfl
  have c := variation_count_invariant "uk" okVarFetch "T1" sampleVarItem
    "SKU3" sampleVarData h
  exact ⟨h, c.1, (c.2.2.2 emptyStore).1, (c.2.2.2 emptyStore).2⟩

/-- C5: a sync of a non-primary site (any site other than `com`)
produces a payload carrying none of the canonical fields, and the
batch writer copies a canonical column only when present on the
update, so a non-primary-site upsert never alters `name`, `images`,
`categories` or `attributes` on the stored row. -/
theorem canonical_write_isolation (site : Site)
    (varFetch : Option Int → Except String (List RawVariation))
    (now : String) (p : CatalogItem) (sk : String) (d : UpdateRecord)
    (hsite : site ≠ "com")
    (h : process_woo_product site varFetch now p = some (.ok sk d)) :
    d.name = none ∧ d.images = none ∧ d.categories = none ∧ d.attributes = none ∧
    ∀ st : Store,
      (batch_update_products st [d] sk).bind StoredRecord.name =
        (st sk).bind StoredRecord.name ∧
      (batch_update_products st [d] sk).bind StoredRecord.images =
        (st sk).bind StoredRecord.images ∧
      (batch_update_products st [d] sk).bind StoredRecord.categories =
        (st sk).bind StoredRecord.categories ∧
      (batch_update_products st [d] sk).bind StoredRecord.attributes =
        (st sk).bind StoredRecord.attributes := by
  obtain ⟨-, hsk, a, b, -, -, rfl⟩ := process_ok_inv h
  set d := enrichData site varFetch now p sk a b with hd
  have hn : d.name = none := by rw [hd]; exact enrichData_name_ne_com _ _ _ _ _ _ _ hsite
  have hi : d.images = none := by rw [hd]; exact enrichData_images_ne_com _ _ _ _ _ _ _ hsite
  have hc : d.categories = none := by
    rw [hd]; exact enrichData_categories_ne_com _ _ _ _ _ _ _ hsite
  have ha : d.attributes = none := by
    rw [hd]; exact enrichData_attributes_ne_com _ _ _ _ _ _ _ hsite
  have hdsk : d.sku = sk := by rw [hd, enrichData_sku]
  refine ⟨hn, hi, hc, ha, fun st => ?_⟩
  have hlk := batch_single_lookup st d
  rw [hdsk] at hlk
  rw [hlk]
  refine ⟨?_, ?_, ?_, ?_⟩
  · show (applyMerged (st sk) (mergeRecord (st sk) d)).name = _
    unfold applyMerged
    show (match (mergeRecord (st sk) d).name with
      | some v => some v | none => (st sk).bind StoredRecord.name) = _
    have : (mergeRecord (st sk) d).name = none := hn
    rw [this]
  · show (applyMerged (st sk) (mergeRecord (st sk) d)).images = _
    unfold applyMerged
    show (match (mergeRecord (st sk) d).images with
      | some v => some v | none => (st sk).bind StoredRecord.images) = _
    have : (mergeRecord (st sk) d).images = none := hi
    rw [this]
  · show (applyMerged (st sk) (mergeRecord (st sk) d)).categories = _
    unfold applyMerged
    show (match (mergeRecord (st sk) d).categories with
      | some v => some v | none => (st sk).bind StoredRecord.categories) = _
    have : (mergeRecord (st sk) d).categories = none := hc
    rw [this]
  · show (applyMerged (st sk) (mergeRecord (st sk) d)).attributes = _
    unfold applyMerged
    show (match (mergeRecord (st sk) d).attributes with
      | some v => some v | none => (st sk).bind StoredRecord.attributes) = _
    have : (mergeRecord (st sk) d).attributes = none := ha
    rw [this]

/-- A store holding one row under the SKU of `sampleBareItem`, with
canonical fields populated. -/
def sampleStoreUK : Store :=
  fun k => if k = "SKU2" then some { sampleStoredDe with sku := "SKU2" } else none

/-- Witness for C5: a `uk` sync of `sampleBareItem` over
`sampleStoreUK` leaves all four canonical columns unchanged. -/
theorem canonical_write_isolation_witness :
    ("uk" : Site) ≠ "com" ∧
    process_woo_product "uk" failVarFetch "T1" sampleBareItem =
      some (.ok "SKU2" sampleBareData) ∧
    sampleBareData.name = none ∧
    (batch_update_products sampleStoreUK [sampleBareData] "SKU2").bind
        StoredRecord.name = (sampleStoreUK "SKU2").bind StoredRecord.name ∧
    (batch_update_products sampleStoreUK [sampleBareData] "SKU2").bind
        StoredRecord.images = (sampleStoreUK "SKU2").bind StoredRecord.images ∧
    (batch_update_products sampleStoreUK [sampleBareData] "SKU2").bind
        StoredRecord.categories = (sampleStoreUK "SKU2").bind StoredRecord.categories ∧
    (batch_update_products sampleStoreUK [sampleBareData] "SKU2").bind
        StoredRecord.attributes = (sampleStoreUK "SKU2").bind StoredRecord.attributes := by
  have h : process_woo_product "uk" failVarFetch "T1" sampleBareItem =
      some (.ok "SKU2" sampleBareData) := rfl
  have c := canonical_write_isolation "uk" failVarFetch "T1" sampleBareItem
    "SKU2" sampleBareData (by decide) h
  have cs := c.2.2.2.2 sampleStoreUK
  exact ⟨by decide, h, c.1, cs.1, cs.2.1, cs.2.2.1, cs.2.2.2⟩

/-! ## Claim C2: cancellation and the pending buffer -/

/-- C2 counterexample: one successful result with `total = 1` and an
oracle that reports cancelled at the polling point.  The loop ends
cancelled with the update still in the pending buffer, yet the
epilogue does not flush it: the terminal status is `cancelled` and the
store still has no row for the buffered SKU, refuting the claim that
the remaining pending buffer is flushed before the terminal status is
finalized. -/
theorem cancellation_flush_counterexample :
    (runSiteSyncLoop (fun _ => true) 1 emptyStore
        [some (.ok "SKU2" sampleBareData)]).status = "cancelled" ∧
    (runLoop (fun _ => true) 1 emptyStore
        [some (.ok "SKU2" sampleBareData)]).pending = [sampleBareData] ∧
    (runSiteSyncLoop (fun _ => true) 1 emptyStore
        [some (.ok "SKU2" sampleBareData)]).store "SKU2" = none :=
  ⟨rfl, rfl, rfl⟩

/-- C2 amended: if the Cancellation Oracle reports cancelled at a
polling point reached during the loop (so the run ends with the
cancelled flag set), the job terminates with terminal status
`cancelled`, but the remaining pending batch buffer is discarded —
the epilogue leaves the store exactly as the loop left it, flushing
nothing. -/
theorem cancellation_discards_pending (oracle : Nat → Bool) (total : Nat)
    (store : Store) (results : List (Option EnrichResult))
    (hc : (runLoop oracle total store results).cancelled = true) :
    (runSiteSyncLoop oracle total store results).status = "cancelled" ∧
    (runSiteSyncLoop oracle total store results).store =
      (runLoop oracle total store results).store := by
  unfold runSiteSyncLoop finalizeSync
  simp [hc]

/-- Witness for C2's amended theorem at the counterexample input. -/
theorem cancellation_discards_pending_witness :
    (runLoop (fun _ => true) 1 emptyStore
        [some (.ok "SKU2" sampleBareData)]).cancelled = true ∧
    (runSiteSyncLoop (fun _ => true) 1 emptyStore
        [some (.ok "SKU2" sampleBareData)]).status = "cancelled" ∧
    (runSiteSyncLoop (fun _ => true) 1 emptyStore
        [some (.ok "SKU2" sampleBareData)]).store =
      (runLoop (fun _ => true) 1 emptyStore
        [some (.ok "SKU2" sampleBareData)]).store := by
  have c := cancellation_discards_pending (fun _ => true) 1 emptyStore
    [some (.ok "SKU2" sampleBareData)] rfl
  exact ⟨rfl, c.1, c.2⟩

/-! ## Claim C8: idempotence of a repeated sync -/

attribute [ext] StoredRecord UpdateRecord

/-- Replace the timestamp of an update payload (the only part of an
enrichment that differs between two runs over an unchanged catalog). -/
def setTs (t : String) (u : UpdateRecord) : UpdateRecord :=
  { u with last_synced_at := t }

/-- Erase the `last_synced_at` column (the claim compares stored rows
excluding it). -/
def clearTs (r : StoredRecord) : StoredRecord :=
  { r with last_synced_at := none }

/-- Re-upserting the timestamp-refreshed update over the row produced
by its own first upsert changes nothing but `last_synced_at`. -/
theorem apply_merge_idem (e : Option StoredRecord) (u : UpdateRecord) (t : String) :
    clearTs (applyMerged (some (applyMerged e (mergeRecord e u)))
        (mergeRecord (some (applyMerged e (mergeRecord e u))) (setTs t u))) =
      clearTs (applyMerged e (mergeRecord e u)) := by
  cases hn : u.name <;> cases hi : u.images <;> cases hc : u.categories <;>
    cases ha : u.attributes <;>
      simp [clearTs, applyMerged, mergeRecord, setTs, safe_dict, dictMerge_absorb,
        hn, hi, hc, ha]

/-- A fold of upserts over records none of which carries the key `k`
leaves the row at `k` unchanged. -/
theorem foldl_applyUpsert_not_mem (ms : List MergedRecord) (st : Store) (k : String)
    (h : ∀ m ∈ ms, m.sku ≠ k) :
    (ms.foldl applyUpsert st) k = st k := by
  induction ms generalizing st with
  | nil => rfl
  | cons m rest ih =>
    rw [List.foldl_cons, ih _ (fun x hx => h x (List.mem_cons_of_mem _ hx))]
    unfold applyUpsert
    rw [if_neg (fun hk => h m (List.mem_cons_self m rest) hk.symm)]

/-- Looking up key `k` after a fold of upserts with pairwise-distinct
SKUs: the unique record carrying `k` (if any) was applied against the
row the fold started from. -/
theorem foldl_applyUpsert_lookup (ms : List MergedRecord) (st : Store) (k : String)
    (hnd : (ms.map MergedRecord.sku).Nodup) :
    (ms.foldl applyUpsert st) k =
      match ms.find? (fun m => m.sku == k) with
      | some m => some (applyMerged (st k) m)
      | none => st k := by
  induction ms generalizing st with
  | nil => rfl
  | cons m rest ih =>
    rw [List.map_cons, List.nodup_cons] at hnd
    rw [List.foldl_cons]
    by_cases hk : m.sku = k
    · rw [List.find?_cons_of_pos _ (by simp [hk])]
      have hrest : ∀ x ∈ rest, x.sku ≠ k := by
        intro x hx he
        exact hnd.1 (by
          rw [show m.sku = x.sku by rw [hk, he]]
          exact List.mem_map_of_mem MergedRecord.sku hx)
      rw [foldl_applyUpsert_not_mem rest _ k hrest]
      unfold applyUpsert
      rw [if_pos hk.symm, hk]
    · rw [List.find?_cons_of_neg _ (by simp [hk])]
      rw [ih (applyUpsert st m) hnd.2]
      have hap : applyUpsert st m k = st k := by
        unfold applyUpsert
        rw [if_neg (fun h => hk h.symm)]
      rw [hap]

/-- Looking up key `k` after one batch upsert with pairwise-distinct
SKUs: either the unique update with SKU `k` was merged against the
pre-batch row at `k` and upserted over it, or the row is untouched. -/
theorem batch_lookup (st : Store) (us : List UpdateRecord) (k : String)
    (hnd : (us.map UpdateRecord.sku).Nodup) :
    batch_update_products st us k =
      match us.find? (fun u => u.sku == k) with
      | some u => some (applyMerged (st k) (mergeRecord (st k) u))
      | none => st k := by
  unfold batch_update_products
  have hnd2 : ((us.map (fun u => mergeRecord (st u.sku) u)).map MergedRecord.sku).Nodup := by
    rw [List.map_map]
    exact hnd
  rw [foldl_applyUpsert_lookup _ _ _ hnd2, List.find?_map]
  have hpred : ((fun m : MergedRecord => m.sku == k) ∘
      (fun u : UpdateRecord => mergeRecord (st u.sku) u)) =
      (fun u : UpdateRecord => u.sku == k) := rfl
  rw [hpred]
  cases hf : us.find? (fun u => u.sku == k) with
  | none => rfl
  | some u =>
    have hku : u.sku = k := by simpa using List.find?_some hf
    show some (applyMerged (st k) (mergeRecord (st u.sku) u)) = _
    rw [hku]

/-- Re-running one batch (with timestamps refreshed to `t`) over the
store produced by its own first run yields, at every key, the same row
up to `last_synced_at`. -/
theorem batch_idem (st : Store) (us : List UpdateRecord) (t : String) (k : String)
    (hnd : (us.map UpdateRecord.sku).Nodup) :
    ((batch_update_products (batch_update_products st us) (us.map (setTs t))) k).map clearTs =
      ((batch_update_products st us) k).map clearTs := by
  have hnd2 : ((us.map (setTs t)).map UpdateRecord.sku).Nodup := by
    rw [List.map_map]
    exact hnd
  rw [batch_lookup (batch_update_products st us) _ k hnd2,
    batch_lookup st us k hnd, List.find?_map]
  have hpred : ((fun u : UpdateRecord => u.sku == k) ∘ setTs t) =
      (fun u : UpdateRecord => u.sku == k) := rfl
  rw [hpred]
  cases hf : us.find? (fun u => u.sku == k) with
  | none => rfl
  | some u =>
    show some (clearTs (applyMerged (some (applyMerged (st k) (mergeRecord (st k) u)))
        (mergeRecord (some (applyMerged (st k) (mergeRecord (st k) u))) (setTs t u)))) =
      some (clearTs (applyMerged (st k) (mergeRecord (st k) u)))
    exact congrArg some (apply_merge_idem (st k) u t)

/-- Changing only the clock changes only `last_synced_at` in an
enriched payload. -/
theorem enrichData_setTs (site : Site)
    (varFetch : Option Int → Except String (List RawVariation))
    (t1 t2 : String) (p : CatalogItem) (sk : String) (a b : Rat) :
    enrichData site varFetch t2 p sk a b =
      setTs t2 (enrichData site varFetch t1 p sk a b) := by
  unfold enrichData setTs
  by_cases h : site = "com" <;> simp [h]

/-- Refresh the timestamp inside one task result. -/
def retime (t : String) : EnrichResult → EnrichResult
  | .ok s d => .ok s (setTs t d)
  | .err s e => .err s e

/-- The enricher run at a later clock returns the same results with
only the timestamps refreshed. -/
theorem process_retime (site : Site)
    (varFetch : Option Int → Except String (List RawVariation))
    (t1 t2 : String) (p : CatalogItem) :
    process_woo_product site varFetch t2 p =
      (process_woo_product site varFetch t1 p).map (retime t2) := by
  unfold process_woo_product
  by_cases hs : p.sku.getD "" = ""
  · simp [hs]
  · rw [if_neg hs, if_neg hs]
    cases ha : floatOfPy p.sale_price p.price with
    | none =>
      cases hb : floatOfPy p.regular_price p.price <;> simp [retime]
    | some a =>
      cases hb : floatOfPy p.regular_price p.price with
      | none => simp [retime]
      | some b =>
        simp only [Option.map_some']
        show some (.ok (p.sku.getD "") (enrichData site varFetch t2 p (p.sku.getD "") a b)) =
          some (retime t2 (.ok (p.sku.getD "") (enrichData site varFetch t1 p (p.sku.getD "") a b)))
        rw [show retime t2 (EnrichResult.ok (p.sku.getD "")
            (enrichData site varFetch t1 p (p.sku.getD "") a b)) =
          EnrichResult.ok (p.sku.getD "")
            (setTs t2 (enrichData site varFetch t1 p (p.sku.getD "") a b)) from rfl]
        rw [enrichData_setTs site varFetch t1 t2 p (p.sku.getD "") a b]

/-- Project the successful payload out of a task result (the loop
appends `result['data']` only for successes). -/
def successData : EnrichResult → Option UpdateRecord
  | .ok _ d => some d
  | .err _ _ => none

/-- The successful update payloads an unchanged catalog yields, in
catalog order (items without SKU and failed items contribute
nothing). -/
def enrichUpdates (site : Site)
    (varFetch : Option Int → Except String (List RawVariation))
    (now : String) (items : List CatalogItem) : List UpdateRecord :=
  items.filterMap (fun p => (process_woo_product site varFetch now p).bind successData)

/-- Re-enriching an unchanged catalog at a later clock yields the same
update list with only timestamps refreshed. -/
theorem enrichUpdates_setTs (site : Site)
    (varFetch : Option Int → Except String (List RawVariation))
    (t1 t2 : String) (items : List CatalogItem) :
    enrichUpdates site varFetch t2 items =
      (enrichUpdates site varFetch t1 items).map (setTs t2) := by
  induction items with
  | nil => rfl
  | cons p rest ih =>
    have hp : (process_woo_product site varFetch t2 p).bind successData =
        ((process_woo_product site varFetch t1 p).bind successData).map (setTs t2) := by
      rw [process_retime site varFetch t1 t2 p]
      cases h : process_woo_product site varFetch t1 p with
      | none => rfl
      | some r => cases r <;> rfl
    unfold enrichUpdates at ih ⊢
    rw [List.filterMap_cons, List.filterMap_cons, hp, ih]
    cases h : (process_woo_product site varFetch t1 p).bind successData with
    | none => simp
    | some d => simp

/-- C8: running the same site sync twice over an unchanged upstream
catalog is idempotent.  With the catalog's successful enrichments
carrying pairwise-distinct SKUs, the batch writer applied a second
time (with refreshed timestamps) leaves every stored row identical to
its state after the first run, excluding `last_synced_at`: merging an
update into a row that already absorbed that update's per-site
entries and canonical fields reproduces the same row. -/
theorem sync_idempotent (store : Store) (site : Site)
    (varFetch : Option Int → Except String (List RawVariation))
    (t1 t2 : String) (items : List CatalogItem) (k : String)
    (hnd : ((enrichUpdates site varFetch t1 items).map UpdateRecord.sku).Nodup) :
    ((batch_update_products
        (batch_update_products store (enrichUpdates site varFetch t1 items))
        (enrichUpdates site varFetch t2 items)) k).map clearTs =
      ((batch_update_products store (enrichUpdates site varFetch t1 items)) k).map clearTs := by
  rw [enrichUpdates_setTs site varFetch t1 t2 items]
  exact batch_idem store _ t2 k hnd

/-- Witness for C8: syncing `[sampleBareItem]` on `uk` twice over the
empty store. -/
theorem sync_idempotent_witness :
    ((enrichUpdates "uk" failVarFetch "T1" [sampleBareItem]).map UpdateRecord.sku).Nodup ∧
    ((batch_update_products
        (batch_update_products emptyStore (enrichUpdates "uk" failVarFetch "T1" [sampleBareItem]))
        (enrichUpdates "uk" failVarFetch "T2" [sampleBareItem])) "SKU2").map clearTs =
      ((batch_update_products emptyStore
        (enrichUpdates "uk" failVarFetch "T1" [sampleBareItem])) "SKU2").map clearTs := by
  have hnd : ((enrichUpdates "uk" failVarFetch "T1" [sampleBareItem]).map
      UpdateRecord.sku).Nodup := by
    show (["SKU2"] : List String).Nodup
    decide
  exact ⟨hnd, sync_idempotent emptyStore "uk" failVarFetch "T1" "T2" [sampleBareItem] "SKU2" hnd⟩
